import Mathlib

/-!
Shallow embedding of `src/src/unlock_environment.c` (the drake native helper
for unlocking R environments) together with theorems about its behaviour.

The C file defines three macros over the host runtime's environment record
and one entry point:

  #define DRAKE_FRAME_LOCK_MASK (1<<14)
  #define DRAKE_FRAME_IS_LOCKED(e) (ENVFLAGS(e) & DRAKE_FRAME_LOCK_MASK)
  #define DRAKE_UNLOCK_FRAME(e) SET_ENVFLAGS(e, ENVFLAGS(e) & (~ DRAKE_FRAME_LOCK_MASK))

  SEXP unlock_environment(SEXP envir) {
    DRAKE_UNLOCK_FRAME(envir);
    return R_NilValue;
  }

The in-place mutation of the record becomes explicit state passing: the
embedded `unlock_environment` returns the updated record together with the
returned SEXP value.  C `int` values are modelled as natural numbers below
`2 ^ 32`; the bitwise complement `~m` of a mask is modelled as
`(2 ^ 32 - 1) ^^^ m`, the two's-complement bit pattern of `~m` read as an
unsigned 32-bit number.
-/

/-- Modelled from the spec: the host runtime's execution-context record
(an R environment).  It carries a flags field (`sxpinfo.gp`, accessed via
`ENVFLAGS` / `SET_ENVFLAGS`) plus further host-owned fields that this code
never touches: the binding frame, the enclosing environment, the hash
table, and the attribute list, each modelled as an opaque reference. -/
structure Environment where
  flags : Nat
  frame : Nat
  enclos : Nat
  hashtab : Nat
  attrib : Nat
deriving DecidableEq

/-- Modelled from the spec: the host-runtime value type (`SEXP`) as seen at
this native-call boundary: either the empty/null value `R_NilValue` or a
reference to an environment record. -/
inductive SEXP where
  | R_NilValue : SEXP
  | envRef : Environment → SEXP
deriving DecidableEq

/-- Modelled from the spec: the host accessor `ENVFLAGS(e)` reads the
record's flags field. -/
def ENVFLAGS (e : Environment) : Nat := e.flags

/-- Modelled from the spec: the host accessor `SET_ENVFLAGS(e, v)` writes
`v` into the record's flags field, leaving every other field alone. -/
def SET_ENVFLAGS (e : Environment) (v : Nat) : Environment := { e with flags := v }

/-- `#define DRAKE_FRAME_LOCK_MASK (1<<14)` from the source. -/
def DRAKE_FRAME_LOCK_MASK : Nat := 1 <<< 14

/-- Bitwise complement of a C `int` bit pattern, read as an unsigned
32-bit number: `~x` is `(2 ^ 32 - 1) ^^^ x`. -/
def NOT32 (x : Nat) : Nat := (2 ^ 32 - 1) ^^^ x

/-- `#define DRAKE_FRAME_IS_LOCKED(e) (ENVFLAGS(e) & DRAKE_FRAME_LOCK_MASK)`
from the source, with the C truth value of the masked word made a `Bool`. -/
def DRAKE_FRAME_IS_LOCKED (e : Environment) : Bool :=
  decide (ENVFLAGS e &&& DRAKE_FRAME_LOCK_MASK ≠ 0)

/-- `#define DRAKE_UNLOCK_FRAME(e)
SET_ENVFLAGS(e, ENVFLAGS(e) & (~ DRAKE_FRAME_LOCK_MASK))` from the source. -/
def DRAKE_UNLOCK_FRAME (e : Environment) : Environment :=
  SET_ENVFLAGS e (ENVFLAGS e &&& NOT32 DRAKE_FRAME_LOCK_MASK)

/-- `SEXP unlock_environment(SEXP envir)` from the source: unlock the frame
and return `R_NilValue`.  The mutated record is returned explicitly. -/
def unlock_environment (envir : Environment) : Environment × SEXP :=
  (DRAKE_UNLOCK_FRAME envir, SEXP.R_NilValue)

/-- The native-call boundary view of `unlock_environment`: a call into the
host may in general signal an error (R's `Rf_error` long-jump), modelled as
`Except`.  The body of `unlock_environment` contains no error call, so the
embedding is unconditionally `Except.ok`. -/
def unlock_environment_call (envir : Environment) : Except String (Environment × SEXP) :=
  Except.ok (unlock_environment envir)

/-- The mask complement `~(1<<14)` has bit `i` set exactly when `i` is a
bit position of a 32-bit `int` other than 14. -/
lemma notMask_testBit (i : Nat) :
    (NOT32 DRAKE_FRAME_LOCK_MASK).testBit i = (decide (i < 32) && !decide (i = 14)) := by
  have h14 : (1 <<< 14 : Nat) = 2 ^ 14 := by simp [Nat.shiftLeft_eq]
  rw [NOT32, DRAKE_FRAME_LOCK_MASK, h14, Nat.testBit_xor,
    Nat.testBit_two_pow_sub_one, Nat.testBit_two_pow]
  by_cases h : i = 14
  · subst h; decide
  · by_cases h2 : i < 32 <;> simp [h2, h, Ne.symm h]

/-- Bit-level characterisation of the unlocked flags word. -/
lemma unlock_flags_testBit (f i : Nat) :
    (f &&& NOT32 DRAKE_FRAME_LOCK_MASK).testBit i
      = (f.testBit i && (decide (i < 32) && !decide (i = 14))) := by
  rw [Nat.testBit_land, notMask_testBit]

/-- Claim C1: after calling `unlock_environment` on any record, the lock
bit (bit 14) of the record's flags field is clear, regardless of its prior
value. -/
theorem unlock_environment_clears_lock_bit (e : Environment) :
    Nat.testBit (ENVFLAGS (unlock_environment e).1) 14 = false := by
  show (e.flags &&& NOT32 DRAKE_FRAME_LOCK_MASK).testBit 14 = false
  rw [unlock_flags_testBit]
  simp

/-- Claim C2: every bit of the flags field other than bit 14 has the same
value after the call to `unlock_environment` as before it (flags being a C
`int`, below `2 ^ 32`). -/
theorem unlock_environment_preserves_other_bits (e : Environment) (i : Nat)
    (hf : e.flags < 2 ^ 32) (hi : i ≠ 14) :
    Nat.testBit (ENVFLAGS (unlock_environment e).1) i = Nat.testBit (ENVFLAGS e) i := by
  simp only [unlock_environment, DRAKE_UNLOCK_FRAME, SET_ENVFLAGS, ENVFLAGS,
    unlock_flags_testBit]
  by_cases h2 : i < 32
  · simp [h2, hi]
  · have hb : e.flags.testBit i = false :=
      Nat.testBit_eq_false_of_lt
        (lt_of_lt_of_le hf (Nat.pow_le_pow_right (by norm_num) (Nat.le_of_not_lt h2)))
    simp [hb]

/-- Witness for C2 at a concrete record and bit position. -/
theorem unlock_environment_preserves_other_bits_witness :
    Nat.testBit (ENVFLAGS (unlock_environment ⟨16385, 0, 0, 0, 0⟩).1) 0
      = Nat.testBit (ENVFLAGS (⟨16385, 0, 0, 0, 0⟩ : Environment)) 0 :=
  unlock_environment_preserves_other_bits ⟨16385, 0, 0, 0, 0⟩ 0 (by decide) (by decide)

/-- Claim C3: `unlock_environment` computes the new flags value as the old
flags value bitwise-ANDed with the complement of the mask `1 <<< 14`, and
writes that result back into the record's flags field, touching nothing
else of the record. -/
theorem unlock_environment_computes_and_not_mask (e : Environment) :
    ENVFLAGS (unlock_environment e).1 = Nat.land (ENVFLAGS e) (Nat.xor (2 ^ 32 - 1) (1 <<< 14))
      ∧ (unlock_environment e).1
          = SET_ENVFLAGS e (Nat.land (ENVFLAGS e) (Nat.xor (2 ^ 32 - 1) (1 <<< 14))) :=
  ⟨rfl, rfl⟩

/-- Claim C4: `unlock_environment` always returns `R_NilValue`, independent
of the record's prior flags state. -/
theorem unlock_environment_returns_nil (e : Environment) :
    (unlock_environment e).2 = SEXP.R_NilValue := rfl

/-- Claim C5: idempotence — calling `unlock_environment` twice in
succession leaves the flags field equal to its value after one call. -/
theorem unlock_environment_idempotent (e : Environment) :
    ENVFLAGS (unlock_environment (unlock_environment e).1).1
      = ENVFLAGS (unlock_environment e).1 := by
  simp only [unlock_environment, DRAKE_UNLOCK_FRAME, SET_ENVFLAGS, ENVFLAGS]
  apply Nat.eq_of_testBit_eq
  intro i
  rw [unlock_flags_testBit, unlock_flags_testBit, Bool.and_assoc, Bool.and_self]

/-- Claim C6: if the lock bit is already clear (the source's
`DRAKE_FRAME_IS_LOCKED` test is false), `unlock_environment` leaves the
flags field entirely unchanged. -/
theorem unlock_environment_noop_when_unlocked (e : Environment)
    (hf : e.flags < 2 ^ 32) (h : DRAKE_FRAME_IS_LOCKED e = false) :
    ENVFLAGS (unlock_environment e).1 = ENVFLAGS e := by
  have hzero : ENVFLAGS e &&& DRAKE_FRAME_LOCK_MASK = 0 := by
    simpa [DRAKE_FRAME_IS_LOCKED] using h
  have hbit : (ENVFLAGS e).testBit 14 = false := by
    have h' := congrArg (fun n => Nat.testBit n 14) hzero
    simp only [Nat.testBit_land] at h'
    have hm : Nat.testBit DRAKE_FRAME_LOCK_MASK 14 = true := by decide
    simpa [hm] using h'
  simp only [unlock_environment, DRAKE_UNLOCK_FRAME, SET_ENVFLAGS, ENVFLAGS] at *
  apply Nat.eq_of_testBit_eq
  intro i
  rw [unlock_flags_testBit]
  by_cases hi : i = 14
  · subst hi; simp [hbit]
  · by_cases h2 : i < 32
    · simp [h2, hi]
    · have hb : e.flags.testBit i = false :=
        Nat.testBit_eq_false_of_lt
          (lt_of_lt_of_le hf (Nat.pow_le_pow_right (by norm_num) (Nat.le_of_not_lt h2)))
      simp [hb]

/-- Witness for C6 at the spec's Scenario 3 record (flags = 0). -/
theorem unlock_environment_noop_when_unlocked_witness :
    ENVFLAGS (unlock_environment ⟨0, 0, 0, 0, 0⟩).1
      = ENVFLAGS (⟨0, 0, 0, 0, 0⟩ : Environment) :=
  unlock_environment_noop_when_unlocked ⟨0, 0, 0, 0, 0⟩ (by decide) (by decide)

/-- Claim C7: the spec's concrete scenarios — flags `0b0100000000000000`
become `0`, and flags `0b0100000000000001` become `1`. -/
theorem unlock_environment_concrete_scenarios :
    ENVFLAGS (unlock_environment ⟨0b0100000000000000, 0, 0, 0, 0⟩).1 = 0b0000000000000000
      ∧ ENVFLAGS (unlock_environment ⟨0b0100000000000001, 0, 0, 0, 0⟩).1 = 0b0000000000000001 := by
  constructor <;> decide

/-- Claim C8: a call to `unlock_environment` never signals an error through
the host's error channel: the boundary view always yields `Except.ok`. -/
theorem unlock_environment_always_succeeds (e : Environment) :
    ∃ r, unlock_environment_call e = Except.ok r := ⟨unlock_environment e, rfl⟩

/-- Claim C9: `unlock_environment` mutates only the flags field — the
frame, enclosing environment, hash table and attributes are untouched —
and it reads nothing but the flags field: records agreeing on flags
produce equal result flags and equal return values. -/
theorem unlock_environment_touches_only_flags (e e' : Environment)
    (h : e'.flags = e.flags) :
    (unlock_environment e).1.frame = e.frame
      ∧ (unlock_environment e).1.enclos = e.enclos
      ∧ (unlock_environment e).1.hashtab = e.hashtab
      ∧ (unlock_environment e).1.attrib = e.attrib
      ∧ (unlock_environment e').1.flags = (unlock_environment e).1.flags
      ∧ (unlock_environment e').2 = (unlock_environment e).2 := by
  refine ⟨rfl, rfl, rfl, rfl, ?_, rfl⟩
  simp [unlock_environment, DRAKE_UNLOCK_FRAME, SET_ENVFLAGS, ENVFLAGS, h]

/-- Witness for C9 at two concrete records sharing a flags value. -/
theorem unlock_environment_touches_only_flags_witness :
    (unlock_environment ⟨5, 1, 2, 3, 4⟩).1.frame = 1
      ∧ (unlock_environment ⟨5, 9, 9, 9, 9⟩).1.flags
          = (unlock_environment ⟨5, 1, 2, 3, 4⟩).1.flags :=
  ⟨(unlock_environment_touches_only_flags ⟨5, 1, 2, 3, 4⟩ ⟨5, 9, 9, 9, 9⟩ rfl).1,
    (unlock_environment_touches_only_flags ⟨5, 1, 2, 3, 4⟩ ⟨5, 9, 9, 9, 9⟩ rfl).2.2.2.2.1⟩

/-- Claim C10: determinism — the resulting flags value and the return
value are a pure function of the record's prior flags value, and the
return value is always `R_NilValue`. -/
theorem unlock_environment_deterministic (e1 e2 : Environment)
    (h : e1.flags = e2.flags) :
    (unlock_environment e1).1.flags = (unlock_environment e2).1.flags
      ∧ (unlock_environment e1).2 = (unlock_environment e2).2
      ∧ (unlock_environment e1).2 = SEXP.R_NilValue := by
  refine ⟨?_, rfl, rfl⟩
  simp [unlock_environment, DRAKE_UNLOCK_FRAME, SET_ENVFLAGS, ENVFLAGS, h]

/-- Witness for C10 at two concrete records sharing a flags value. -/
theorem unlock_environment_deterministic_witness :
    (unlock_environment ⟨16384, 7, 7, 7, 7⟩).1.flags
        = (unlock_environment ⟨16384, 0, 0, 0, 0⟩).1.flags
      ∧ (unlock_environment ⟨16384, 7, 7, 7, 7⟩).2 = SEXP.R_NilValue :=
  ⟨(unlock_environment_deterministic ⟨16384, 7, 7, 7, 7⟩ ⟨16384, 0, 0, 0, 0⟩ rfl).1,
    (unlock_environment_deterministic ⟨16384, 7, 7, 7, 7⟩ ⟨16384, 0, 0, 0, 0⟩ rfl).2.2⟩
